import Mathlib

/-!
Verification development for the handson-blender-scripts repository.

Each section gives a shallow embedding, in Lean, of the algorithmic core of
one of the repository scripts (the Blender-independent arithmetic, selection,
recursion-counting, classification and file-backup logic), followed by
theorems settling the frozen claims about those scripts.  Machine floats are
modelled by exact real numbers; the Python int() truncation and the Python
nonnegative modulo are modelled explicitly.
-/

namespace MathUtils

/-- A 3-component vector, modelling mathutils.Vector as used by the scripts. -/
@[ext] structure V3 where
  x : ℝ
  y : ℝ
  z : ℝ

/-- Componentwise vector addition. -/
def vadd (a b : V3) : V3 := ⟨a.x + b.x, a.y + b.y, a.z + b.z⟩

/-- Componentwise vector subtraction. -/
def vsub (a b : V3) : V3 := ⟨a.x - b.x, a.y - b.y, a.z - b.z⟩

/-- Scalar multiplication of a vector. -/
def smul (c : ℝ) (a : V3) : V3 := ⟨c * a.x, c * a.y, c * a.z⟩

/-- Dot product, modelling mathutils.Vector.dot. -/
def dot (a b : V3) : ℝ := a.x * b.x + a.y * b.y + a.z * b.z

/-- Cross product, modelling mathutils.Vector.cross. -/
def cross (a b : V3) : V3 :=
  ⟨a.y * b.z - a.z * b.y, a.z * b.x - a.x * b.z, a.x * b.y - a.y * b.x⟩

/-- Euclidean length, modelling mathutils.Vector.length. -/
noncomputable def vlen (a : V3) : ℝ := Real.sqrt (dot a a)

/-- Normalization, modelling mathutils.Vector.normalize (a zero vector is
left unchanged, as in mathutils). -/
noncomputable def normalize (a : V3) : V3 :=
  if vlen a = 0 then a else smul (1 / vlen a) a

/-- Projection of a onto b, modelling mathutils.Vector.project:
(a.dot b / b.dot b) * b. -/
noncomputable def project (a b : V3) : V3 := smul (dot a b / dot b b) b

/-- The world X axis, the fallback rotation axis in handson_006. -/
def xAxis : V3 := ⟨1, 0, 0⟩

end MathUtils

/-- Python int() truncation toward zero of a real value. -/
noncomputable def pyInt (x : ℝ) : ℤ := if 0 ≤ x then ⌊x⌋ else ⌈x⌉

namespace Handson014

open MathUtils

/-- The four fixed camouflage colors of create_camo_colors in
handson_014.py: dark olive, khaki, deep green, dark brown (RGBA). -/
def create_camo_colors : List (ℝ × ℝ × ℝ × ℝ) :=
  [(0.22, 0.25, 0.15, 1.0),
   (0.35, 0.32, 0.18, 1.0),
   (0.15, 0.17, 0.12, 1.0),
   (0.28, 0.24, 0.16, 1.0)]

/-- The three-octave noise blend of generate_noise_texture in
handson_014.py: noise at frequencies scale, 2 scale, 4 scale with weights
1, 0.5, 0.25, the sum divided by 1.5.  The coherent-noise primitive
mathutils.noise.noise is abstracted as the function argument nf. -/
noncomputable def noise_at (nf : V3 → ℝ) (scale x y z : ℝ) : ℝ :=
  (nf ⟨x * scale, y * scale, z * scale⟩
    + nf ⟨x * scale * 2, y * scale * 2, z * scale * 2⟩ * 0.5
    + nf ⟨x * scale * 4, y * scale * 4, z * scale * 4⟩ * 0.25) / 1.5

/-- The palette-index computation of apply_vertex_paint in handson_014.py:
int((noise_val + 1) * len(colors) / 2) % len(colors), with the Python int()
truncation toward zero and the Python nonnegative modulo. -/
noncomputable def color_idx (noise_val : ℝ) : ℤ :=
  pyInt ((noise_val + 1) * (create_camo_colors.length : ℝ) / 2)
    % (create_camo_colors.length : ℤ)

end Handson014

/-- Claim C5: the camouflage noise-to-palette mapping
index = trunc((noise + 1) * 4 / 2) mod 4 yields index 0 at noise -1.0,
wraps to index 0 at noise +1.0 (since (1+1)*4/2 mod 4 = 0), and yields
index 2 at noise 0.0. -/
theorem c5_camo_palette_mapping :
    Handson014.color_idx (-1) = 0
    ∧ Handson014.color_idx 1 = 0
    ∧ Handson014.color_idx 0 = 2 := by
  refine ⟨?_, ?_, ?_⟩ <;>
    norm_num [Handson014.color_idx, Handson014.create_camo_colors, pyInt]

/-- Claim C10: for every real noise value v, even outside the interval
from -1 to 1 (which the three-octave blend can produce, since the weights
sum to 1.75 but the divisor is only 1.5), the computed palette index lies
in the set 0..3, so the 4-entry palette lookup is in bounds. -/
theorem c10_camo_index_always_in_bounds :
    (∀ v : ℝ, 0 ≤ Handson014.color_idx v
      ∧ Handson014.color_idx v < 4
      ∧ (Handson014.color_idx v).toNat < Handson014.create_camo_colors.length)
    ∧ (∃ nf : MathUtils.V3 → ℝ, (∀ p, |nf p| ≤ 1)
        ∧ 1 < Handson014.noise_at nf 1.5 0 0 0) := by
  constructor
  · intro v
    have hlen : (Handson014.create_camo_colors.length : ℤ) = 4 := by
      norm_num [Handson014.create_camo_colors]
    have h0 : 0 ≤ Handson014.color_idx v := by
      unfold Handson014.color_idx
      exact Int.emod_nonneg _ (by rw [hlen]; norm_num)
    have h4 : Handson014.color_idx v < 4 := by
      unfold Handson014.color_idx
      rw [hlen]
      exact Int.emod_lt_of_pos _ (by norm_num)
    refine ⟨h0, h4, ?_⟩
    have hlen2 : Handson014.create_camo_colors.length = 4 := by
      norm_num [Handson014.create_camo_colors]
    rw [hlen2]
    omega
  · refine ⟨fun _ => 1, fun p => by norm_num, ?_⟩
    norm_num [Handson014.noise_at]

namespace Handson016

/-- The star-count parameter num_stars of handson_016.py. -/
def num_stars : ℕ := 5000

/-- The subdivision cut count of create_starry_sky in handson_016.py:
int(num_stars ** 0.5 - 1), i.e. the Python truncation of sqrt(5000) - 1. -/
noncomputable def subdivide_number_cuts : ℤ :=
  pyInt (Real.sqrt (num_stars : ℝ) - 1)

end Handson016

/-- The square root of 5000 lies strictly between 70 and 71. -/
theorem sqrt5000_bounds : 70 < Real.sqrt 5000 ∧ Real.sqrt 5000 < 71 := by
  constructor
  · rw [show (70:ℝ) = Real.sqrt (70 ^ 2) by
      rw [Real.sqrt_sq] <;> norm_num]
    exact Real.sqrt_lt_sqrt (by norm_num) (by norm_num)
  · rw [show (71:ℝ) = Real.sqrt (71 ^ 2) by
      rw [Real.sqrt_sq] <;> norm_num]
    exact Real.sqrt_lt_sqrt (by norm_num) (by norm_num)

/-- Claim C7 counterexample: the script passes
int(sqrt(5000) - 1) = 69 cuts to the subdivide operation, while
ceil(sqrt(5000)) - 1 = 70; the claimed count is wrong. -/
theorem c7_counterexample :
    Handson016.subdivide_number_cuts = 69
    ∧ (⌈Real.sqrt ((Handson016.num_stars : ℕ) : ℝ)⌉ - 1 : ℤ) = 70
    ∧ Handson016.subdivide_number_cuts
        ≠ ⌈Real.sqrt ((Handson016.num_stars : ℕ) : ℝ)⌉ - 1 := by
  obtain ⟨h1, h2⟩ := sqrt5000_bounds
  have hnum : ((Handson016.num_stars : ℕ) : ℝ) = 5000 := by
    norm_num [Handson016.num_stars]
  have hfloor : Handson016.subdivide_number_cuts = 69 := by
    unfold Handson016.subdivide_number_cuts pyInt
    rw [hnum, if_pos (by linarith)]
    rw [Int.floor_eq_iff] <;> push_cast
    constructor <;> linarith
  have hceil : (⌈Real.sqrt ((Handson016.num_stars : ℕ) : ℝ)⌉ : ℤ) = 71 := by
    rw [hnum, Int.ceil_eq_iff] <;> push_cast
    constructor <;> linarith
  refine ⟨hfloor, by rw [hceil]; norm_num, by rw [hfloor, hceil]; norm_num⟩

/-- Claim C7 amended: the starfield generator subdivides its plane with
int(sqrt(num_stars) - 1) = floor(sqrt(num_stars)) - 1 cuts; for
num_stars = 5000 that is 69 cuts, not 70. -/
theorem c7_amended_cut_count :
    Handson016.subdivide_number_cuts
      = ⌊Real.sqrt ((Handson016.num_stars : ℕ) : ℝ)⌋ - 1
    ∧ Handson016.subdivide_number_cuts = 69 := by
  obtain ⟨h1, h2⟩ := sqrt5000_bounds
  have hnum : ((Handson016.num_stars : ℕ) : ℝ) = 5000 := by
    norm_num [Handson016.num_stars]
  have hfloor : Handson016.subdivide_number_cuts = 69 := by
    unfold Handson016.subdivide_number_cuts pyInt
    rw [hnum, if_pos (by linarith)]
    rw [Int.floor_eq_iff] <;> push_cast
    constructor <;> linarith
  have hfloor2 : (⌊Real.sqrt ((Handson016.num_stars : ℕ) : ℝ)⌋ : ℤ) = 70 := by
    rw [hnum, Int.floor_eq_iff] <;> push_cast
    constructor <;> linarith
  exact ⟨by rw [hfloor, hfloor2]; norm_num, hfloor⟩

namespace OutputFS

/-- A flat file-system state: an association list from paths to file
contents (contents abstracted as natural numbers). -/
abbrev FS := List (String × ℕ)

/-- Look up the content stored at a path. -/
def fs_lookup : FS → String → Option ℕ
  | [], _ => none
  | (p, c) :: rest, q => if p = q then some c else fs_lookup rest q

/-- os.path.exists on the modelled file system. -/
def fs_exists (fs : FS) (p : String) : Bool := (fs_lookup fs p).isSome

/-- Remove any entry at a path. -/
def fs_remove : FS → String → FS
  | [], _ => []
  | e :: rest, p => if e.1 = p then fs_remove rest p else e :: fs_remove rest p

/-- Write content at a path, replacing any existing entry. -/
def fs_write (fs : FS) (p : String) (c : ℕ) : FS :=
  (p, c) :: fs_remove fs p

/-- os.rename / shutil.move: move the entry at old to new (overwriting
new); no effect when old does not exist. -/
def fs_rename (fs : FS) (old new : String) : FS :=
  match fs_lookup fs old with
  | none => fs
  | some c => fs_write (fs_remove fs old) new c

theorem fs_lookup_remove_ne (fs : FS) (p q : String) (h : p ≠ q) :
    fs_lookup (fs_remove fs p) q = fs_lookup fs q := by
  induction fs with
  | nil => rfl
  | cons e rest ih =>
    by_cases he : e.1 = p
    · have hq : e.1 ≠ q := by rw [he]; exact h
      rw [show fs_remove (e :: rest) p = fs_remove rest p by
        simp [fs_remove, he]]
      rw [ih, show fs_lookup (e :: rest) q = fs_lookup rest q by
        simp [fs_lookup, hq]]
    · rw [show fs_remove (e :: rest) p = e :: fs_remove rest p by
        simp [fs_remove, he]]
      by_cases hq : e.1 = q
      · simp [fs_lookup, hq]
      · simp only [fs_lookup, if_neg hq]
        exact ih

theorem fs_lookup_write (fs : FS) (p q : String) (c : ℕ) :
    fs_lookup (fs_write fs p c) q = if p = q then some c else fs_lookup fs q := by
  by_cases h : p = q
  · simp [fs_write, fs_lookup, h]
  · simp only [fs_write, fs_lookup, if_neg h]
    exact fs_lookup_remove_ne fs p q h

end OutputFS

namespace Handson007

open OutputFS

/-- The fixed output path of render_image in handson_007.py. -/
def output_path : String := "output/auto_lod.png"

/-- The file-system effect of render_image in handson_007.py: the render
result is written straight to output/auto_lod.png; no backup rename of a
pre-existing file is performed anywhere in the function. -/
def render_image (fs : FS) (img : ℕ) : FS := fs_write fs output_path img

end Handson007

namespace Handson016

open OutputFS

/-- The fixed output path output_dir/output_base + ".png" of
handson_016.py. -/
def output_path : String := "output/starry_sky_vertex.png"

/-- The backup path built by backup_existing_file in handson_016.py:
os.path.splitext splits the fixed output path into its stem and ".png",
and the backup is stem + "_" + timestamp + ext. -/
def backup_path (timestamp : String) : String :=
  "output/starry_sky_vertex" ++ "_" ++ timestamp ++ ".png"

/-- backup_existing_file in handson_016.py: when a file exists at the
output path it is renamed to the timestamped backup path. -/
def backup_existing_file (fs : FS) (timestamp : String) : FS :=
  if fs_exists fs output_path then fs_rename fs output_path (backup_path timestamp)
  else fs

/-- The output-file effect of one run of handson_016.py: back up any
pre-existing output file, then write the new render to the output path. -/
def run_output_step (fs : FS) (timestamp : String) (img : ℕ) : FS :=
  fs_write (backup_existing_file fs timestamp) output_path img

end Handson016

/-- Claim C1 counterexample: running the render step of handson_007 twice
against the same output directory leaves only the second image; the first
file from the first run at output/auto_lod.png is overwritten with no backup rename, so
it is lost.  The final file system is computed in full. -/
theorem c1_counterexample :
    Handson007.render_image (Handson007.render_image [] 1) 2
      = [("output/auto_lod.png", 2)] := by
  rfl

/-- Claim C1 amended: the components that use a backup helper (such as
backup_existing_file in handson_016.py) do rename a pre-existing output
file to a timestamped backup path distinct from the output path before
writing, so the file from the first run survives a second run; but
render_image of handson_007 writes its output path directly with no
backup. -/
theorem c1_amended_backup_preserves
    (fs : OutputFS.FS) (timestamp : String) (img c : ℕ)
    (hpre : OutputFS.fs_lookup fs Handson016.output_path = some c) :
    Handson016.backup_path timestamp ≠ Handson016.output_path
    ∧ OutputFS.fs_lookup (Handson016.run_output_step fs timestamp img)
        Handson016.output_path = some img
    ∧ OutputFS.fs_lookup (Handson016.run_output_step fs timestamp img)
        (Handson016.backup_path timestamp) = some c := by
  have hne : Handson016.backup_path timestamp ≠ Handson016.output_path := by
    intro h
    have hlen := congrArg String.length h
    rw [Handson016.backup_path, Handson016.output_path, String.length_append,
      String.length_append, String.length_append] at hlen
    have l1 : "output/starry_sky_vertex".length = 24 := rfl
    have l2 : "_".length = 1 := rfl
    have l3 : ".png".length = 4 := rfl
    have l4 : "output/starry_sky_vertex.png".length = 28 := rfl
    omega
  have hback : Handson016.backup_existing_file fs timestamp
      = OutputFS.fs_write (OutputFS.fs_remove fs Handson016.output_path)
          (Handson016.backup_path timestamp) c := by
    unfold Handson016.backup_existing_file OutputFS.fs_exists
    rw [hpre]
    simp [OutputFS.fs_rename, hpre]
  refine ⟨hne, ?_, ?_⟩
  · unfold Handson016.run_output_step
    rw [OutputFS.fs_lookup_write, if_pos rfl]
  · unfold Handson016.run_output_step
    rw [OutputFS.fs_lookup_write, if_neg (fun h => hne h.symm), hback,
      OutputFS.fs_lookup_write, if_pos rfl]

/-- Claim C1 amended witness: a concrete run of handson_016 on a file
system already holding an output file from an earlier run. -/
theorem c1_amended_backup_preserves_witness :
    OutputFS.fs_lookup
      (Handson016.run_output_step [("output/starry_sky_vertex.png", 7)]
        "20250101000000" 9) Handson016.output_path = some 9
    ∧ OutputFS.fs_lookup
        (Handson016.run_output_step [("output/starry_sky_vertex.png", 7)]
          "20250101000000" 9) (Handson016.backup_path "20250101000000")
        = some 7 := by
  have h := c1_amended_backup_preserves
    [("output/starry_sky_vertex.png", 7)] "20250101000000" 9 7 (by rfl)
  exact ⟨h.2.1, h.2.2⟩

namespace EntryPoints

/-- The outcome of a script body run in the host: either normal completion
or an exception carrying a message. -/
abbrev BodyResult := Except String Unit

/-- What is observable at process level after the entry block finishes:
whether a top-level handler printed an error message, and whether an
exception escaped the entry block (terminating the host with a traceback). -/
structure RunReport where
  printed : Option String
  raised : Option String

/-- The entry block of handson_007.py: main() is wrapped in
try/except Exception, and the handler prints the message and swallows the
exception. -/
def handson007_entry : BodyResult → RunReport
  | .ok _ => ⟨none, none⟩
  | .error e => ⟨some e, none⟩

/-- The entry block of handson_006.py: same try/except-print shape as
handson_007.py. -/
def handson006_entry : BodyResult → RunReport
  | .ok _ => ⟨none, none⟩
  | .error e => ⟨some e, none⟩

/-- The entry of handson_014.py: main() catches Exception, prints the
message, then re-raises it with a bare raise statement, so the exception
propagates beyond the handler. -/
def handson014_entry : BodyResult → RunReport
  | .ok _ => ⟨none, none⟩
  | .error e => ⟨some e, some e⟩

/-- The entry of handson_016.py: the module-level block calls
ensure_output_dir, backup_existing_file and create_starry_sky with no
try/except at all; any exception escapes unhandled and unprinted. -/
def handson016_entry : BodyResult → RunReport
  | .ok _ => ⟨none, none⟩
  | .error e => ⟨none, some e⟩

/-- The entry of handson_025.py: main() is called bare, with no top-level
try/except anywhere in the script. -/
def handson025_entry : BodyResult → RunReport
  | .ok _ => ⟨none, none⟩
  | .error e => ⟨none, some e⟩

/-- The entry of handson_010.py: main() catches Exception, prints the
message, then executes a bare raise, so the exception propagates out of
the bare module-level main() call. -/
def handson010_entry : BodyResult → RunReport
  | .ok _ => ⟨none, none⟩
  | .error e => ⟨some e, some e⟩

/-- The entry of handson_011.py: same print-then-bare-raise handler inside
main() as handson_010.py. -/
def handson011_entry : BodyResult → RunReport
  | .ok _ => ⟨none, none⟩
  | .error e => ⟨some e, some e⟩

/-- The entry of handson_012.py: same print-then-bare-raise handler inside
main() as handson_010.py. -/
def handson012_entry : BodyResult → RunReport
  | .ok _ => ⟨none, none⟩
  | .error e => ⟨some e, some e⟩

/-- The entry of handson_013.py: same print-then-bare-raise handler inside
main() as handson_010.py. -/
def handson013_entry : BodyResult → RunReport
  | .ok _ => ⟨none, none⟩
  | .error e => ⟨some e, some e⟩

/-- The entry of handson_017.py: main() is called bare, and inside main
the call to prepare_output_directory runs before the try block while the
scene-build and render pipeline runs inside try/except whose handler
prints the message and returns.  The first argument is the outcome of the
preparation phase, the second the outcome of the guarded pipeline phase
(only reached when preparation succeeded). -/
def handson017_entry : BodyResult → BodyResult → RunReport
  | .error e, _ => ⟨none, some e⟩
  | .ok _, .ok _ => ⟨none, none⟩
  | .ok _, .error e => ⟨some e, none⟩

/-- The property claimed for every component: the whole body is wrapped in
a catch-all that prints an error message including the failure text and
lets no exception propagate beyond it. -/
def wrapsCatchAll (entry : BodyResult → RunReport) : Prop :=
  ∀ e : String, (entry (Except.error e)).printed = some e
    ∧ (entry (Except.error e)).raised = none

end EntryPoints

/-- Claim C8 counterexample: handson_016 and handson_025 have no top-level
catch-all (an exception escapes with nothing printed), and handson_014
re-raises after printing, so the exception propagates beyond its handler;
the universal claim is false. -/
theorem c8_counterexample :
    ¬ EntryPoints.wrapsCatchAll EntryPoints.handson016_entry
    ∧ ¬ EntryPoints.wrapsCatchAll EntryPoints.handson025_entry
    ∧ ¬ EntryPoints.wrapsCatchAll EntryPoints.handson014_entry := by
  refine ⟨fun h => ?_, fun h => ?_, fun h => ?_⟩
  · have := (h "boom").1
    simp [EntryPoints.handson016_entry] at this
  · have := (h "boom").1
    simp [EntryPoints.handson025_entry] at this
  · have := (h "boom").2
    simp [EntryPoints.handson014_entry] at this

/-- Claim C8 amended: scripts handson_001 through handson_009 (modelled
here by handson_006 and handson_007) wrap main() in a top-level catch-all
that prints the failure text and propagates nothing; handson_010 through
handson_014 catch inside main, print the failure text, then re-raise with
a bare raise, so the exception propagates beyond the handler; handson_017
catches, prints and swallows failures of its scene-build and render
pipeline, while a failure of its output-directory preparation (which runs
before the try block) propagates unprinted; and the remaining scripts
(modelled here by handson_016 and handson_025) call their body bare with
no top-level handler, so exceptions propagate with nothing printed. -/
theorem c8_amended_entry_behaviour :
    EntryPoints.wrapsCatchAll EntryPoints.handson007_entry
    ∧ EntryPoints.wrapsCatchAll EntryPoints.handson006_entry
    ∧ (∀ e : String,
        (EntryPoints.handson010_entry (Except.error e)).printed = some e
        ∧ (EntryPoints.handson010_entry (Except.error e)).raised = some e)
    ∧ (∀ e : String,
        (EntryPoints.handson011_entry (Except.error e)).printed = some e
        ∧ (EntryPoints.handson011_entry (Except.error e)).raised = some e)
    ∧ (∀ e : String,
        (EntryPoints.handson012_entry (Except.error e)).printed = some e
        ∧ (EntryPoints.handson012_entry (Except.error e)).raised = some e)
    ∧ (∀ e : String,
        (EntryPoints.handson013_entry (Except.error e)).printed = some e
        ∧ (EntryPoints.handson013_entry (Except.error e)).raised = some e)
    ∧ (∀ e : String,
        (EntryPoints.handson014_entry (Except.error e)).printed = some e
        ∧ (EntryPoints.handson014_entry (Except.error e)).raised = some e)
    ∧ (∀ e : String,
        (EntryPoints.handson017_entry (Except.ok ()) (Except.error e)).printed
          = some e
        ∧ (EntryPoints.handson017_entry (Except.ok ()) (Except.error e)).raised
          = none)
    ∧ (∀ (e : String) (r : EntryPoints.BodyResult),
        (EntryPoints.handson017_entry (Except.error e) r).printed = none
        ∧ (EntryPoints.handson017_entry (Except.error e) r).raised = some e)
    ∧ (∀ e : String,
        (EntryPoints.handson016_entry (Except.error e)).printed = none
        ∧ (EntryPoints.handson016_entry (Except.error e)).raised = some e)
    ∧ (∀ e : String,
        (EntryPoints.handson025_entry (Except.error e)).raised = some e) := by
  refine ⟨fun e => ⟨rfl, rfl⟩, fun e => ⟨rfl, rfl⟩, fun e => ⟨rfl, rfl⟩,
    fun e => ⟨rfl, rfl⟩, fun e => ⟨rfl, rfl⟩, fun e => ⟨rfl, rfl⟩,
    fun e => ⟨rfl, rfl⟩, fun e => ⟨rfl, rfl⟩, fun e r => ⟨rfl, rfl⟩,
    fun e => ⟨rfl, rfl⟩, fun e => rfl⟩

namespace Handson007

open MathUtils

/-- The LOD variants generated by generate_lod_levels in handson_007.py
from lod_settings [(0.5, 10.0), (0.25, 20.0), (0.1, 40.0)]: each entry is
the duplicated object name (original name plus "_LOD_" plus
int(ratio*100)) paired with its switch-distance threshold. -/
def lod_objects : List (String × ℝ) :=
  [("LOD_Target_LOD_50", 10.0),
   ("LOD_Target_LOD_25", 20.0),
   ("LOD_Target_LOD_10", 40.0)]

/-- The combined candidate list of update_lod in handson_007.py: the
high-detail target at threshold 0.0 followed by the LOD variants. -/
def lod_levels : List (String × ℝ) := ("LOD_Target", 0.0) :: lod_objects

/-- The candidate list sorted ascending by threshold, modelling
sorted(lod_levels, key=lambda x: x[1]). -/
noncomputable def sorted_lod_levels : List (String × ℝ) :=
  lod_levels.mergeSort (fun a b => decide (a.2 ≤ b.2))

/-- The selection loop of update_lod in handson_007.py: starting from the
target, walk the threshold-sorted candidates and keep the last one whose
threshold is at most the distance. -/
noncomputable def choose_lod (distance : ℝ) : String :=
  sorted_lod_levels.foldl
    (fun chosen lv => if distance ≥ lv.2 then lv.1 else chosen) "LOD_Target"

/-- update_lod in handson_007.py: compute the Euclidean distance between
the camera and target world positions and select the object to show. -/
noncomputable def update_lod (cam_loc target_loc : V3) : String :=
  choose_lod (vlen (vsub cam_loc target_loc))

theorem sorted_lod_levels_eq : sorted_lod_levels = lod_levels := by
  apply List.mergeSort_of_sorted
  norm_num [lod_levels, lod_objects, List.pairwise_cons]

end Handson007

/-- Claim C2: with candidates at thresholds 0.0, 10.0, 20.0, 40.0, the LOD
switcher picks the candidate with the largest threshold at most the
computed camera-target distance, with an inclusive boundary: distance 15
gives the 10-threshold variant, 5 gives the base target, 45 gives the
40-threshold variant, and exactly 20 gives the 20-threshold variant. -/
theorem c2_lod_selection (cam_loc target_loc : MathUtils.V3) (d : ℝ)
    (hdist : MathUtils.vlen (MathUtils.vsub cam_loc target_loc) = d) :
    (d < 10 → Handson007.update_lod cam_loc target_loc = "LOD_Target")
    ∧ (10 ≤ d → d < 20 →
        Handson007.update_lod cam_loc target_loc = "LOD_Target_LOD_50")
    ∧ (20 ≤ d → d < 40 →
        Handson007.update_lod cam_loc target_loc = "LOD_Target_LOD_25")
    ∧ (40 ≤ d → Handson007.update_lod cam_loc target_loc = "LOD_Target_LOD_10")
    ∧ (d = 15 → Handson007.update_lod cam_loc target_loc = "LOD_Target_LOD_50")
    ∧ (d = 5 → Handson007.update_lod cam_loc target_loc = "LOD_Target")
    ∧ (d = 45 → Handson007.update_lod cam_loc target_loc = "LOD_Target_LOD_10")
    ∧ (d = 20 → Handson007.update_lod cam_loc target_loc = "LOD_Target_LOD_25") := by
  have hbase : ∀ x : ℝ, Handson007.choose_lod x =
      if x ≥ (40.0 : ℝ) then "LOD_Target_LOD_10"
      else if x ≥ (20.0 : ℝ) then "LOD_Target_LOD_25"
      else if x ≥ (10.0 : ℝ) then "LOD_Target_LOD_50"
      else "LOD_Target" := by
    intro x
    unfold Handson007.choose_lod
    rw [Handson007.sorted_lod_levels_eq]
    simp only [Handson007.lod_levels, Handson007.lod_objects, List.foldl_cons,
      List.foldl_nil]
    by_cases h40 : x ≥ (40.0 : ℝ)
    · rw [if_pos h40, if_pos h40]
    · rw [if_neg h40, if_neg h40]
      by_cases h20 : x ≥ (20.0 : ℝ)
      · rw [if_pos h20, if_pos h20]
      · rw [if_neg h20, if_neg h20]
        by_cases h10 : x ≥ (10.0 : ℝ)
        · rw [if_pos h10, if_pos h10]
        · rw [if_neg h10, if_neg h10]
          by_cases h0 : x ≥ (0.0 : ℝ)
          · rw [if_pos h0]
          · rw [if_neg h0]
  have hupd : Handson007.update_lod cam_loc target_loc =
      if d ≥ (40.0 : ℝ) then "LOD_Target_LOD_10"
      else if d ≥ (20.0 : ℝ) then "LOD_Target_LOD_25"
      else if d ≥ (10.0 : ℝ) then "LOD_Target_LOD_50"
      else "LOD_Target" := by
    unfold Handson007.update_lod
    rw [hdist, hbase]
  refine ⟨?_, ?_, ?_, ?_, ?_, ?_, ?_, ?_⟩ <;> intro h1
  · rw [hupd, if_neg (by push_neg; linarith), if_neg (by push_neg; linarith),
      if_neg (by push_neg; linarith)]
  · intro h2
    rw [hupd, if_neg (by push_neg; linarith), if_neg (by push_neg; linarith),
      if_pos (by linarith)]
  · intro h2
    rw [hupd, if_neg (by push_neg; linarith), if_pos (by linarith)]
  · rw [hupd, if_pos (by linarith)]
  · rw [hupd, if_neg (by push_neg; linarith), if_neg (by push_neg; linarith),
      if_pos (by linarith)]
  · rw [hupd, if_neg (by push_neg; linarith), if_neg (by push_neg; linarith),
      if_neg (by push_neg; linarith)]
  · rw [hupd, if_pos (by linarith)]
  · rw [hupd, if_neg (by push_neg; linarith), if_pos (by linarith)]

/-- Claim C2 witness: a camera at (15, 0, 0) looking at a target at the
origin has computed distance 15 and selects the 10-threshold variant. -/
theorem c2_lod_selection_witness :
    MathUtils.vlen (MathUtils.vsub ⟨15, 0, 0⟩ ⟨0, 0, 0⟩) = 15
    ∧ Handson007.update_lod ⟨15, 0, 0⟩ ⟨0, 0, 0⟩ = "LOD_Target_LOD_50" := by
  have hd : MathUtils.vlen (MathUtils.vsub ⟨15, 0, 0⟩ ⟨0, 0, 0⟩) = (15 : ℝ) := by
    unfold MathUtils.vlen MathUtils.vsub MathUtils.dot
    norm_num
    rw [show (225 : ℝ) = 15 ^ 2 by norm_num, Real.sqrt_sq (by norm_num)]
  exact ⟨hd, (c2_lod_selection ⟨15, 0, 0⟩ ⟨0, 0, 0⟩ 15 hd).2.2.2.2.1 rfl⟩

namespace Handson006

/-- The number of branch cylinders created by create_branch in
handson_006.py, as a function of the recursion depth.  The call creates no
cylinder at depth 0; otherwise it creates one cylinder and, when depth
exceeds 1, recurses once per drawn child branch with depth - 1.  The
random draw random.randint(2, 3) of each call is abstracted as the
function nb from the tree path of the call (the list of child indices from the
root) to the drawn branch count.  The definition is total, so the
recursion terminates for every depth. -/
def create_branch_count (nb : List ℕ → ℕ) : ℕ → List ℕ → ℕ
  | 0, _ => 0
  | d + 1, path =>
    1 + (if 1 < d + 1 then
      (Finset.range (nb path)).sum (fun i => create_branch_count nb d (path ++ [i]))
    else 0)

/-- When the drawn branch count depends only on the recursion level, the
cylinder count is the sum over levels of the product of the counts drawn
at the ancestor levels. -/
theorem create_branch_count_levelwise (f : ℕ → ℕ) (nb : List ℕ → ℕ)
    (hnb : ∀ q, nb q = f q.length) :
    ∀ (d : ℕ) (path : List ℕ),
      create_branch_count nb d path
        = ∑ k ∈ Finset.range d, ∏ j ∈ Finset.range k, f (path.length + j) := by
  intro d
  induction d with
  | zero => intro path; simp [create_branch_count]
  | succ d ih =>
    intro path
    rcases Nat.eq_zero_or_pos d with hd | hd
    · subst hd
      simp [create_branch_count]
    · rw [create_branch_count, if_pos (by omega)]
      have hsum : (Finset.range (nb path)).sum
          (fun i => create_branch_count nb d (path ++ [i]))
          = nb path * ∑ k ∈ Finset.range d, ∏ j ∈ Finset.range k,
              f (path.length + 1 + j) := by
        rw [Finset.sum_congr rfl (fun i _ => ih (path ++ [i]))]
        simp [List.length_append, Finset.sum_const, mul_comm]
      rw [hsum, hnb]
      rw [Finset.sum_range_succ' (fun k => ∏ j ∈ Finset.range k, f (path.length + j))]
      simp only [Finset.range_zero, Finset.prod_empty]
      have hprod : ∀ k, ∏ j ∈ Finset.range (k + 1), f (path.length + j)
          = f path.length * ∏ j ∈ Finset.range k, f (path.length + 1 + j) := by
        intro k
        rw [Finset.prod_range_succ' (fun j => f (path.length + j))]
        simp only [Nat.add_zero]
        rw [mul_comm]
        congr 1
        exact Finset.prod_congr rfl (fun j _ => by ring_nf)
      rw [Finset.sum_congr rfl (fun k _ => hprod k), ← Finset.mul_sum]
      ring

end Handson006

/-- Claim C3: the fractal-tree recursion terminates (create_branch_count
is a total function of the depth), a call at depth 0 creates zero
cylinders, and for level-wise branch counts f (each drawn in the set 2..3)
the total cylinder count at depth d is 1 plus, for each level k from 1 to
d - 1, the product of the counts chosen at the ancestor levels; in
particular depth 2 with a forced count of 2 creates exactly 3 cylinders. -/
theorem c3_fractal_tree_branch_count (f : ℕ → ℕ) (nb : List ℕ → ℕ)
    (hnb : ∀ q, nb q = f q.length) (hf : ∀ k, f k = 2 ∨ f k = 3)
    (d : ℕ) (hd : 1 ≤ d) :
    Handson006.create_branch_count nb 0 [] = 0
    ∧ Handson006.create_branch_count nb d []
        = 1 + ∑ k ∈ Finset.Icc 1 (d - 1), ∏ j ∈ Finset.range k, f j
    ∧ Handson006.create_branch_count (fun _ => 2) 2 [] = 3 := by
  refine ⟨rfl, ?_, by decide⟩
  rw [Handson006.create_branch_count_levelwise f nb hnb d []]
  obtain ⟨m, rfl⟩ : ∃ m, d = m + 1 := ⟨d - 1, by omega⟩
  rw [Finset.sum_range_succ'
    (fun k => ∏ j ∈ Finset.range k, f (([] : List ℕ).length + j))]
  simp only [List.length_nil, Nat.zero_add, Finset.range_zero, Finset.prod_empty,
    Nat.add_sub_cancel]
  rw [Nat.add_comm]
  congr 1
  rw [show ∑ k ∈ Finset.Icc 1 m, ∏ j ∈ Finset.range k, f j
      = ∑ k ∈ Finset.range m, ∏ j ∈ Finset.range (1 + k), f j by
    rw [← Nat.Ico_succ_right, Finset.sum_Ico_eq_sum_range]
    simp]
  exact Finset.sum_congr rfl (fun k _ => by rw [Nat.add_comm 1 k])

/-- Claim C3 witness: the forced-count-2 instance at depth 2. -/
theorem c3_fractal_tree_branch_count_witness :
    Handson006.create_branch_count (fun _ => 2) 2 []
      = 1 + ∑ k ∈ Finset.Icc 1 (2 - 1), ∏ _j ∈ Finset.range k, 2
    ∧ Handson006.create_branch_count (fun _ => 2) 2 [] = 3 := by
  have h := c3_fractal_tree_branch_count (fun _ => 2) (fun _ => 2)
    (fun q => rfl) (fun k => Or.inl rfl) 2 (by norm_num)
  exact ⟨h.2.1, h.2.2⟩

namespace Handson006

open MathUtils

/-- The axis-angle rotation mathutils.Matrix.Rotation(angle, 4, axis)
applied to a vector v, written in Rodrigues form; this is the matrix the
script builds, valid for the unit axis the script supplies after
normalizing perp. -/
noncomputable def matrix_rotation_apply (angle : ℝ) (axis v : V3) : V3 :=
  vadd (vadd (smul (Real.cos angle) v) (smul (Real.sin angle) (cross axis v)))
    (smul ((1 - Real.cos angle) * dot axis v) axis)

/-- The perpendicular rotation-axis computation of create_branch in
handson_006.py: subtract from the random vector its projection on the
branch direction, fall back to the world X axis when the residual has
zero length, then normalize. -/
noncomputable def perp_axis (rand_vec direction : V3) : V3 :=
  let perp := vsub rand_vec (project rand_vec direction)
  let perp2 := if vlen perp = 0 then xAxis else perp
  normalize perp2

/-- The child branch direction of create_branch in handson_006.py: rotate
the parent direction about the perpendicular axis by the branching angle,
then normalize. -/
noncomputable def child_direction (angle : ℝ) (perp direction : V3) : V3 :=
  normalize (matrix_rotation_apply angle perp direction)

end Handson006

/-- Claim C9: for a unit parent direction d and the unit perpendicular
rotation axis p produced by the script, the child direction has unit
length and its dot product with d equals cos of the drawn branching angle
(drawn in the interval from 20 to 40 degrees, i.e. pi/9 to 2 pi/9
radians); and when the random candidate vector is exactly parallel to d
(zero projection residual) the rotation axis falls back to the world X
axis (1, 0, 0). -/
theorem c9_child_direction_geometry (θ t : ℝ) (d p r : MathUtils.V3)
    (hd : MathUtils.dot d d = 1) (hp : MathUtils.dot p p = 1)
    (hpd : MathUtils.dot p d = 0)
    (hθ1 : Real.pi / 9 ≤ θ) (hθ2 : θ ≤ 2 * Real.pi / 9)
    (hr : r = MathUtils.smul t d) :
    MathUtils.dot (Handson006.child_direction θ p d)
        (Handson006.child_direction θ p d) = 1
    ∧ MathUtils.dot (Handson006.child_direction θ p d) d = Real.cos θ
    ∧ Handson006.perp_axis r d = MathUtils.xAxis := by
  have hd2 := hd; have hp2 := hp; have hpd2 := hpd
  simp only [MathUtils.dot] at hd2 hp2 hpd2
  have hcc : MathUtils.dot (Handson006.matrix_rotation_apply θ p d)
      (Handson006.matrix_rotation_apply θ p d) = 1 := by
    have pyth := Real.sin_sq_add_cos_sq θ
    simp only [Handson006.matrix_rotation_apply, MathUtils.vadd, MathUtils.smul,
      MathUtils.cross, MathUtils.dot]
    linear_combination (Real.cos θ ^ 2 + Real.sin θ ^ 2) * hd2
      + Real.sin θ ^ 2 * (d.x ^ 2 + d.y ^ 2 + d.z ^ 2) * hp2
      + (-(Real.sin θ ^ 2) * (p.x * d.x + p.y * d.y + p.z * d.z)
         + (1 - Real.cos θ) ^ 2 * (p.x * d.x + p.y * d.y + p.z * d.z)
             * (p.x ^ 2 + p.y ^ 2 + p.z ^ 2)
         + 2 * Real.cos θ * (1 - Real.cos θ)
             * (p.x * d.x + p.y * d.y + p.z * d.z)) * hpd2
      + pyth
  have hcd : MathUtils.dot (Handson006.matrix_rotation_apply θ p d) d
      = Real.cos θ := by
    simp only [Handson006.matrix_rotation_apply, MathUtils.vadd, MathUtils.smul,
      MathUtils.cross, MathUtils.dot]
    linear_combination Real.cos θ * hd2
      + (1 - Real.cos θ) * (p.x * d.x + p.y * d.y + p.z * d.z) * hpd2
  have hlen : MathUtils.vlen (Handson006.matrix_rotation_apply θ p d) = 1 := by
    rw [MathUtils.vlen, hcc, Real.sqrt_one]
  have hnorm : Handson006.child_direction θ p d
      = Handson006.matrix_rotation_apply θ p d := by
    rw [Handson006.child_direction, MathUtils.normalize, hlen,
      if_neg one_ne_zero]
    ext <;> simp [MathUtils.smul]
  have hfall : Handson006.perp_axis r d = MathUtils.xAxis := by
    have hproj : MathUtils.project r d = MathUtils.smul t d := by
      subst hr
      rw [MathUtils.project,
        show MathUtils.dot (MathUtils.smul t d) d = t * MathUtils.dot d d by
          simp only [MathUtils.dot, MathUtils.smul]; ring, hd]
      norm_num
    have hzero : MathUtils.vsub r (MathUtils.project r d) = ⟨0, 0, 0⟩ := by
      rw [hproj, hr]
      ext <;> simp [MathUtils.vsub, MathUtils.smul]
    have hzlen : MathUtils.vlen (⟨0, 0, 0⟩ : MathUtils.V3) = 0 := by
      rw [MathUtils.vlen]
      norm_num [MathUtils.dot]
    have hxlen : MathUtils.vlen MathUtils.xAxis = 1 := by
      rw [MathUtils.vlen]
      norm_num [MathUtils.dot, MathUtils.xAxis]
    show MathUtils.normalize
        (if MathUtils.vlen (MathUtils.vsub r (MathUtils.project r d)) = 0
          then MathUtils.xAxis else MathUtils.vsub r (MathUtils.project r d))
      = MathUtils.xAxis
    rw [hzero, hzlen, if_pos rfl, MathUtils.normalize, hxlen,
      if_neg one_ne_zero]
    ext <;> simp [MathUtils.smul, MathUtils.xAxis]
  refine ⟨?_, ?_, hfall⟩
  · rw [hnorm]; exact hcc
  · rw [hnorm]; exact hcd

/-- Claim C9 witness: parent direction straight up, rotation axis the X
axis, branching angle 30 degrees (pi/6), and a random vector exactly twice
the parent direction. -/
theorem c9_child_direction_geometry_witness :
    MathUtils.dot
        (Handson006.child_direction (Real.pi / 6) ⟨1, 0, 0⟩ ⟨0, 0, 1⟩)
        (Handson006.child_direction (Real.pi / 6) ⟨1, 0, 0⟩ ⟨0, 0, 1⟩) = 1
    ∧ MathUtils.dot
        (Handson006.child_direction (Real.pi / 6) ⟨1, 0, 0⟩ ⟨0, 0, 1⟩)
        ⟨0, 0, 1⟩ = Real.cos (Real.pi / 6)
    ∧ Handson006.perp_axis (MathUtils.smul 2 ⟨0, 0, 1⟩) ⟨0, 0, 1⟩
        = MathUtils.xAxis := by
  have hpi := Real.pi_pos
  exact c9_child_direction_geometry (Real.pi / 6) 2 ⟨0, 0, 1⟩ ⟨1, 0, 0⟩
    (MathUtils.smul 2 ⟨0, 0, 1⟩)
    (by norm_num [MathUtils.dot]) (by norm_num [MathUtils.dot])
    (by norm_num [MathUtils.dot])
    (by linarith) (by linarith) rfl

namespace Handson024

/-- The displacement amplitude of main in handson_024.py. -/
def amplitude : ℝ := 0.2

/-- The cylinder height of main in handson_024.py. -/
def height : ℝ := 2.0

/-- The bottom-cap Z coordinate of main in handson_024.py. -/
def z_bottom : ℝ := -1.0

/-- The top-cap Z coordinate of main in handson_024.py. -/
def z_top : ℝ := 1.0

/-- The per-vertex Z update of the displacement loop in handson_024.py:
vertices whose Z is within 1e-3 of the top or bottom cap are skipped
(continue); every other vertex gets
amplitude * sin(pi * (z - z_bottom) / height) added to its Z. -/
noncomputable def displace_vertex_z (z : ℝ) : ℝ :=
  if |z - z_top| < 1e-3 ∨ |z - z_bottom| < 1e-3 then z
  else z + amplitude * Real.sin (Real.pi * ((z - z_bottom) / height))

end Handson024

/-- Claim C4: every cylinder vertex away from the exact top and bottom
caps gets amplitude * sin(pi * (z - z_bottom) / height) added to its Z
(amplitude 0.2, height 2, z_bottom -1); a vertex at z_bottom is left with
its Z unchanged, consistent with the formula value amplitude * sin 0 = 0
there; the midpoint vertex (z = 0, factor 0.5) receives the maximum
displacement amplitude = 0.2; and a vertex at z_top is skipped and left
untouched. -/
theorem c4_sine_displacement_profile (z : ℝ)
    (htop : ¬ |z - Handson024.z_top| < 1e-3)
    (hbot : ¬ |z - Handson024.z_bottom| < 1e-3) :
    Handson024.displace_vertex_z z
      = z + Handson024.amplitude
          * Real.sin (Real.pi * ((z - Handson024.z_bottom) / Handson024.height))
    ∧ Handson024.displace_vertex_z Handson024.z_bottom = Handson024.z_bottom
    ∧ Handson024.amplitude
        * Real.sin (Real.pi
            * ((Handson024.z_bottom - Handson024.z_bottom) / Handson024.height))
        = 0
    ∧ Handson024.displace_vertex_z 0 = Handson024.amplitude
    ∧ Handson024.displace_vertex_z Handson024.z_top = Handson024.z_top := by
  refine ⟨?_, ?_, ?_, ?_, ?_⟩
  · rw [Handson024.displace_vertex_z, if_neg (not_or.mpr ⟨htop, hbot⟩)]
  · rw [Handson024.displace_vertex_z, if_pos]
    right
    norm_num [Handson024.z_bottom]
  · rw [show (Handson024.z_bottom - Handson024.z_bottom) / Handson024.height
        = 0 by norm_num]
    simp
  · rw [Handson024.displace_vertex_z, if_neg]
    · rw [show Real.pi * ((0 - Handson024.z_bottom) / Handson024.height)
          = Real.pi / 2 by
        rw [Handson024.z_bottom, Handson024.height]; ring,
        Real.sin_pi_div_two]
      norm_num [Handson024.amplitude]
    · norm_num [Handson024.z_top, Handson024.z_bottom, abs_lt]
  · rw [Handson024.displace_vertex_z, if_pos]
    left
    norm_num [Handson024.z_top]

/-- Claim C4 witness: the quarter-height ring vertex at z = 0.5 is away
from both caps and gets the half-sine displacement. -/
theorem c4_sine_displacement_profile_witness :
    Handson024.displace_vertex_z 0.5
      = 0.5 + Handson024.amplitude
          * Real.sin (Real.pi
              * ((0.5 - Handson024.z_bottom) / Handson024.height))
    ∧ Handson024.displace_vertex_z 0 = Handson024.amplitude := by
  have h := c4_sine_displacement_profile 0.5
    (by norm_num [Handson024.z_top, abs_lt])
    (by norm_num [Handson024.z_bottom, abs_lt])
  exact ⟨h.1, h.2.2.2.1⟩

namespace Handson025

/-- The classification a polygon receives in create_building in
handson_025.py. -/
inductive FaceKind where
  | warmLit
  | dimCool
  | darkUnlit
  | structural
deriving DecidableEq

/-- The fixed color of a dark / unlit window in create_building. -/
def dark_window_color : ℝ × ℝ × ℝ := (0.02, 0.02, 0.03)

/-- The fixed color of a structural (top or bottom) face in
create_building. -/
def structural_color : ℝ × ℝ × ℝ × ℝ := (0.05, 0.05, 0.07, 1.0)

/-- The per-polygon classification of create_building in handson_025.py:
a polygon with |normal.z| < 0.5 is a window candidate and one drawn
uniform value classifies it (above 0.6 warm lit, above 0.3 dim cool,
otherwise dark); any other polygon is structural regardless of the drawn
value. -/
noncomputable def classify_face (normal_z window_probability : ℝ) : FaceKind :=
  if |normal_z| < 0.5 then
    if window_probability > 0.6 then FaceKind.warmLit
    else if window_probability > 0.3 then FaceKind.dimCool
    else FaceKind.darkUnlit
  else FaceKind.structural

/-- The inner loop of create_building that writes the single color of a face
to every loop index of the face in the vertex-color layer. -/
def assign_face_color (layer : ℕ → ℝ × ℝ × ℝ × ℝ) (loop_indices : List ℕ)
    (c : ℝ × ℝ × ℝ × ℝ) : ℕ → ℝ × ℝ × ℝ × ℝ :=
  fun i => if i ∈ loop_indices then c else layer i

end Handson025

/-- Claim C6: a building polygon with |normal.z| at least 0.5 is always
given the fixed structural color regardless of any drawn value; otherwise
the single drawn value per polygon classifies it as a warm lit window
above 0.6, a dim cool window above 0.3 up to 0.6, and a dark unlit window
(fixed color 0.02, 0.02, 0.03) at 0.3 or below; and every loop vertex of a
face receives the single per-face color. -/
theorem c6_window_classification (nz w : ℝ) :
    (0.5 ≤ |nz| → Handson025.classify_face nz w = Handson025.FaceKind.structural)
    ∧ (|nz| < 0.5 → 0.6 < w →
        Handson025.classify_face nz w = Handson025.FaceKind.warmLit)
    ∧ (|nz| < 0.5 → 0.3 < w → w ≤ 0.6 →
        Handson025.classify_face nz w = Handson025.FaceKind.dimCool)
    ∧ (|nz| < 0.5 → w ≤ 0.3 →
        Handson025.classify_face nz w = Handson025.FaceKind.darkUnlit)
    ∧ (∀ (layer : ℕ → ℝ × ℝ × ℝ × ℝ) (idxs : List ℕ) (c : ℝ × ℝ × ℝ × ℝ)
        (i : ℕ), i ∈ idxs → Handson025.assign_face_color layer idxs c i = c)
    ∧ Handson025.dark_window_color = (0.02, 0.02, 0.03)
    ∧ Handson025.structural_color = (0.05, 0.05, 0.07, 1.0) := by
  refine ⟨?_, ?_, ?_, ?_, ?_, rfl, rfl⟩
  · intro h
    rw [Handson025.classify_face, if_neg (not_lt.mpr h)]
  · intro h hw
    rw [Handson025.classify_face, if_pos h, if_pos hw]
  · intro h hw1 hw2
    rw [Handson025.classify_face, if_pos h, if_neg (not_lt.mpr hw2),
      if_pos hw1]
  · intro h hw
    rw [Handson025.classify_face, if_pos h,
      if_neg (not_lt.mpr (by linarith)), if_neg (not_lt.mpr hw)]
  · intro layer idxs c i hi
    rw [Handson025.assign_face_color]
    simp [hi]

/-- Claim C6 witness: the spec instances, with a vertical side face
(normal z component 0) for drawn values 0.95, 0.45, 0.1 and a roof face
(normal z component 1) for drawn value 0.95. -/
theorem c6_window_classification_witness :
    Handson025.classify_face 0 0.95 = Handson025.FaceKind.warmLit
    ∧ Handson025.classify_face 0 0.45 = Handson025.FaceKind.dimCool
    ∧ Handson025.classify_face 0 0.1 = Handson025.FaceKind.darkUnlit
    ∧ Handson025.classify_face 1 0.95 = Handson025.FaceKind.structural
    ∧ Handson025.assign_face_color (fun _ => Handson025.structural_color)
        [0, 1, 2, 3] (0.02, 0.02, 0.03, 1.0) 2 = (0.02, 0.02, 0.03, 1.0) := by
  refine ⟨(c6_window_classification 0 0.95).2.1 (by norm_num) (by norm_num),
    (c6_window_classification 0 0.45).2.2.1 (by norm_num) (by norm_num)
      (by norm_num),
    (c6_window_classification 0 0.1).2.2.2.1 (by norm_num) (by norm_num),
    (c6_window_classification 1 0.95).1 (by norm_num),
    (c6_window_classification 0 0).2.2.2.2.1 _ [0, 1, 2, 3] _ 2 (by norm_num)⟩
